import Mathlib

/-!
# Verification of the rebuy-marketplace offer feed store

Shallow embedding of the offer feed store (`offers.store.ts`), the offers
API service (`offers-api.service.ts`) and the offer data model
(`offer.model.ts`) of the rebuy-marketplace repository, together with
theorems settling the specification's claims about pagination, optimistic
voting with rollback, sorting, and vote persistence.

Modelling conventions:
* Machine numbers (`votes`, vote deltas, cached totals) are `Int`; page
  indices are `Nat`.  Fields the code only carries around (`price`,
  `createdAt`, ...) are carried as plain data.
* The store's signal state is a record `StoreState`; each store method is a
  state-passing function.  The asynchronous boundaries (the rxResource page
  fetch and the fire-and-forget vote reconciliation) are explicit events:
  `loadNextPage` returns the page a fetch was issued for, `fetchSuccess` /
  `fetchFailure` apply the resource's success / error continuation, and
  `voteRollback` is the error callback of `updateOfferVotes`'s subscription.
* `localStorage` is the single slot `rebuy_user_votes`, modelled as
  `Option String`.  `JSON.stringify` / `JSON.parse` of the vote array are
  modelled by a concrete serializer and a parser for the serialized shape;
  a parse failure models the `SyntaxError` thrown by `JSON.parse`.
-/

namespace RebuyMarketplace

/-- Condition enumeration from `offer.model.ts`:
`type OfferCondition = 'new' | 'like-new' | 'good' | 'fair'`. -/
inductive OfferCondition
  | new
  | likeNew
  | good
  | fair
deriving DecidableEq

/-- The `Offer` interface from `offer.model.ts`.  `price` and `votes` are JS
numbers used as integers by the code; `createdAt` is an opaque timestamp. -/
structure Offer where
  id : String
  title : String
  description : String
  price : Int
  currency : String
  imageUrl : String
  votes : Int
  category : String
  seller : String
  condition : OfferCondition
  createdAt : Int
deriving DecidableEq

/-- `type VoteType = 1 | -1` from `offer.model.ts`. -/
inductive VoteType
  | up
  | down
deriving DecidableEq

/-- The numeric value of a `VoteType` (`up` is the literal `1`, `down` is the
literal `-1`). -/
def VoteType.toInt : VoteType → Int
  | .up => 1
  | .down => -1

/-- The `UserVote` interface from `offer.model.ts`. -/
structure UserVote where
  offerId : String
  voteType : VoteType
deriving DecidableEq

/-- The `OffersPageResponse` interface from `offers-api.service.ts`. -/
structure OffersPageResponse where
  offers : List Offer
  total : Nat
  page : Nat
  pageSize : Nat
  hasMore : Bool
deriving DecidableEq

/-! ## JSON persistence of the user vote array

The store persists `UserVote[]` with `JSON.stringify` and reads it back with
`JSON.parse`.  We model the pair by a concrete character-level serializer
producing `JSON.stringify`'s output shape (`[` objects `]`, properties in
source order, strings quoted with backslash escapes) and a parser for
exactly that schema which fails (`none`, i.e. a thrown `SyntaxError`) on
input it cannot parse. -/

/-- JSON string escaping for the characters relevant to round-tripping an
`offerId`: a backslash or a double quote is preceded by a backslash. -/
def jsonEscape : List Char → List Char
  | [] => []
  | c :: cs => if c = '\\' ∨ c = '"' then '\\' :: c :: jsonEscape cs else c :: jsonEscape cs

/-- The JSON number token for a `voteType` (only `1` and `-1` occur). -/
def voteTypeJson : VoteType → List Char
  | .up => ['1']
  | .down => ['-', '1']

/-- `JSON.stringify` of one `\x7bofferId, voteType\x7d` object, properties in
the order they are written in the source (`offerId` first). -/
def serializeUserVote (v : UserVote) : List Char :=
  "\x7b\"offerId\":\"".data ++ jsonEscape v.offerId.data
    ++ "\",\"voteType\":".data ++ voteTypeJson v.voteType ++ ['\x7d']

/-- The comma-separated object list inside the serialized array. -/
def serializeItems : List UserVote → List Char
  | [] => []
  | [v] => serializeUserVote v
  | v :: w :: vs => serializeUserVote v ++ ',' :: serializeItems (w :: vs)

/-- `JSON.stringify(userVotes)`: the full serialized vote array. -/
def serializeUserVotes (votes : List UserVote) : String :=
  String.mk ('[' :: serializeItems votes ++ [']'])

/-- Consume an expected literal character sequence, returning the remainder. -/
def parseExact : List Char → List Char → Option (List Char)
  | [], cs => some cs
  | _ :: _, [] => none
  | l :: ls, c :: cs => if c = l then parseExact ls cs else none

/-- Read a JSON string body (after its opening quote) up to the closing quote,
undoing backslash escapes. -/
def parseStringBody : List Char → Option (List Char × List Char)
  | [] => none
  | c :: cs =>
    if c = '"' then some ([], cs)
    else if c = '\\' then
      match cs with
      | [] => none
      | d :: ds => (parseStringBody ds).map (fun r => (d :: r.1, r.2))
    else (parseStringBody cs).map (fun r => (c :: r.1, r.2))

/-- Read a `voteType` number token (`1` or `-1`). -/
def parseVoteTypeToken : List Char → Option (VoteType × List Char)
  | [] => none
  | c :: cs =>
    if c = '1' then some (.up, cs)
    else if c = '-' then
      match cs with
      | [] => none
      | d :: ds => if d = '1' then some (.down, ds) else none
    else none

/-- Parse one serialized `UserVote` object. -/
def parseItem (cs : List Char) : Option (UserVote × List Char) :=
  match parseExact "\x7b\"offerId\":\"".data cs with
  | none => none
  | some cs1 =>
    match parseStringBody cs1 with
    | none => none
    | some (idChars, cs2) =>
      match parseExact ",\"voteType\":".data cs2 with
      | none => none
      | some cs3 =>
        match parseVoteTypeToken cs3 with
        | none => none
        | some (vt, cs4) =>
          match cs4 with
          | [] => none
          | c :: cs5 =>
            if c = '\x7d' then some ({ offerId := String.mk idChars, voteType := vt }, cs5)
            else none

/-- Parse a non-empty comma-separated object list terminated by `]`; the fuel
argument bounds the number of objects and only ever needs to be at least the
input length. -/
def parseItems : Nat → List Char → Option (List UserVote × List Char)
  | 0, _ => none
  | fuel + 1, cs =>
    match parseItem cs with
    | none => none
    | some (v, rest) =>
      match rest with
      | ',' :: rest2 =>
        match parseItems fuel rest2 with
        | some (vs, r) => some (v :: vs, r)
        | none => none
      | ']' :: rest2 => some ([v], rest2)
      | _ => none

/-- `JSON.parse` specialised to the vote-array schema the store writes and
reads; `none` models the `SyntaxError` thrown on unparsable input. -/
def parseUserVotes (s : String) : Option (List UserVote) :=
  match s.data with
  | [] => none
  | c :: rest =>
    if c = '[' then
      match rest with
      | [] => none
      | d :: rest1 =>
        if d = ']' then (if rest1 = [] then some [] else none)
        else
          match parseItems (d :: rest1).length (d :: rest1) with
          | some (vs, rest2) => if rest2 = [] then some vs else none
          | none => none
    else none

/-! ## The offers API service (`offers-api.service.ts`) -/

/-- The mutable state of `OffersApiService`: the offer list captured by the
last `getOffers` fetch (`#allOffers`, `null` before any fetch) and the
in-memory vote cache (`#votesCache`, a `Map` kept as an insertion-ordered
association list). -/
structure OffersApiService where
  allOffers : Option (List Offer)
  votesCache : List (String × Int)
deriving DecidableEq

namespace OffersApiService

/-- `Map.get`: the cached total for an id, if present. -/
def cacheGet (m : List (String × Int)) (k : String) : Option Int :=
  (m.find? (fun e => e.1 == k)).map (fun e => e.2)

/-- `Map.set`: update the entry in place if the key is present, else append. -/
def cacheSet (m : List (String × Int)) (k : String) (v : Int) : List (String × Int) :=
  if (m.find? (fun e => e.1 == k)).isSome then
    m.map (fun e => if e.1 == k then (k, v) else e)
  else m ++ [(k, v)]

/-- `this.#allOffers?.find((o) => o.id === offerId)`. -/
def offerLookup (st : OffersApiService) (offerId : String) : Option Offer :=
  st.allOffers.bind (fun offers => offers.find? (fun o => o.id == offerId))

/-- `updateVote(offerId, voteChange)`: the current total is the cached value,
else the fetched offer's votes, else `0` (the `??` chain in the source); the
new total is baked into the cache and returned. -/
def updateVote (st : OffersApiService) (offerId : String) (voteChange : Int) :
    OffersApiService × Int :=
  let currentVotes :=
    ((cacheGet st.votesCache offerId).or ((offerLookup st offerId).map (fun o => o.votes))).getD 0
  let newVotes := currentVotes + voteChange
  ({ st with votesCache := cacheSet st.votesCache offerId newVotes }, newVotes)

/-- The data source's last-known total for an id: the cache entry if present,
else the `votes` of the offer as last fetched, else `0` for an unknown id. -/
def lastKnownVotes (st : OffersApiService) (offerId : String) : Int :=
  match cacheGet st.votesCache offerId with
  | some v => v
  | none =>
    match offerLookup st offerId with
    | some o => o.votes
    | none => 0

end OffersApiService

/-! ## The offer feed store (`offers.store.ts`) -/

/-- The store's signal state.  `currentPage`, `accumulatedOffers` and
`userVotesSignal` are the store's own signals; `storage` is the
`rebuy_user_votes` localStorage slot; the `res*` fields are the observable
state of the `offersResource` rxResource (`isLoading()`, `error()`,
`value()`). -/
structure StoreState where
  currentPage : Nat
  accumulatedOffers : List Offer
  userVotes : List UserVote
  storage : Option String
  resLoading : Bool
  resError : Option String
  resValue : Option OffersPageResponse
deriving DecidableEq

namespace OffersStore

/-- The fixed page size of the store. -/
def pageSize : Nat := 10

/-- `loadUserVotes()`: `stored ? JSON.parse(stored) : []`.  The JS truthiness
test is falsy for both `null` (a missing slot) and the empty string, so both
yield `[]` without parsing.  There is no try/catch in the source, so a parse
failure is a thrown `SyntaxError`, modelled as `Except.error`. -/
def loadUserVotes (stored : Option String) : Except String (List UserVote) :=
  match stored with
  | some s =>
    if s = "" then .ok []
    else
      match parseUserVotes s with
      | some votes => .ok votes
      | none => .error "SyntaxError: JSON.parse: unexpected character"
  | none => .ok []

/-- The state of a freshly constructed store before its initial page-0 fetch
resolves: empty accumulated set, the given loaded votes, resource loading. -/
def initStoreState (userVotes : List UserVote) (storage : Option String) : StoreState :=
  { currentPage := 0
    accumulatedOffers := []
    userVotes := userVotes
    storage := storage
    resLoading := true
    resError := none
    resValue := none }

/-- Store construction against a given localStorage slot: `userVotesSignal`
is initialised from `loadUserVotes()`, whose `JSON.parse` may throw. -/
def initStore (stored : Option String) : Except String StoreState :=
  (loadUserVotes stored).map (fun votes => initStoreState votes stored)

/-- Success continuation of the rxResource stream: the `tap` appends the
response's offers to the accumulated set, and the resource leaves the
loading state carrying the response as its value. -/
def fetchSuccess (s : StoreState) (response : OffersPageResponse) : StoreState :=
  { s with
    accumulatedOffers := s.accumulatedOffers ++ response.offers
    resLoading := false
    resError := none
    resValue := some response }

/-- Error continuation of the rxResource stream: the resource leaves the
loading state with the failure recorded and no value; while the error is
recorded the resource is in the error state, in which reading `value()`
throws (see `resourceValue`).  Nothing else is touched. -/
def fetchFailure (s : StoreState) (message : String) : StoreState :=
  { s with
    resLoading := false
    resError := some message
    resValue := none }

/-- `loading()`: `offersResource.isLoading()`. -/
def loading (s : StoreState) : Bool := s.resLoading

/-- `error()`: the last failed request's message, or `null`. -/
def error (s : StoreState) : Option String := s.resError

/-- `hasMore()`: `offersResource.value()?.hasMore ?? true`, on states where
reading `value()` does not throw (resource not in the error state).
`hasMoreChecked` below is the full semantics including the throwing read. -/
def hasMore (s : StoreState) : Bool :=
  match s.resValue with
  | some response => response.hasMore
  | none => true

/-- The sort order of the comparator `(a, b) => b.votes - a.votes`: `a` may
be placed before `b` exactly when the comparator is non-positive, i.e. when
`b.votes ≤ a.votes`. -/
def voteOrder (a b : Offer) : Prop := b.votes ≤ a.votes

instance : DecidableRel voteOrder := fun a b => (inferInstance : Decidable (b.votes ≤ a.votes))

instance : IsTotal Offer voteOrder := ⟨fun a b => Int.le_total b.votes a.votes⟩

instance : IsTrans Offer voteOrder := ⟨fun _ _ _ h1 h2 => le_trans h2 h1⟩

/-- `offers()`: `[...accumulatedOffers()].sort((a, b) => b.votes - a.votes)`.
`Array.prototype.sort` is specified to be stable, so it is modelled by the
stable insertion sort with respect to `voteOrder`. -/
def offers (s : StoreState) : List Offer :=
  List.insertionSort voteOrder s.accumulatedOffers

/-- `userVotes()`: the full current vote set. -/
def userVotes (s : StoreState) : List UserVote := s.userVotes

/-- `getOfferById(id)`: pure lookup in the accumulated set. -/
def getOfferById (s : StoreState) (id : String) : Option Offer :=
  s.accumulatedOffers.find? (fun offer => offer.id == id)

/-- `getUserVote(offerId)`: `1` for an upvote, `-1` for a downvote, `0` for
no vote. -/
def getUserVote (s : StoreState) (offerId : String) : Int :=
  match s.userVotes.find? (fun v => v.offerId == offerId) with
  | some v => v.voteType.toInt
  | none => 0

/-- `loadNextPage()`: guarded cursor advance, on states where reading
`value()` does not throw.  Advancing `currentPage` makes the rxResource
issue a fetch for the new page, so the function also returns the page a
fetch was issued for (`none` when the guard suppressed the call).
`loadNextPageChecked` below is the full semantics including the throwing
`hasMore()` read in the error state; the two agree whenever no error is
recorded (`loadNextPageChecked_of_no_error`). -/
def loadNextPage (s : StoreState) : StoreState × Option Nat :=
  if !loading s && hasMore s then
    ({ s with
        currentPage := s.currentPage + 1
        resLoading := true
        resError := none
        resValue := none },
      some (s.currentPage + 1))
  else (s, none)

/-- Reading `offersResource.value()` under the Angular 20+ resource
semantics this repository uses: while the resource is in the error state
(a failure is recorded) the read throws the stored error; otherwise it
returns the resource's value, `none` while a fetch is pending. -/
def resourceValue (s : StoreState) : Except String (Option OffersPageResponse) :=
  match s.resError with
  | some message => .error message
  | none => .ok s.resValue

/-- `hasMore()` with the throwing `value()` read made explicit:
`offersResource.value()?.hasMore ?? true` throws the stored fetch error when
the resource is in the error state. -/
def hasMoreChecked (s : StoreState) : Except String Bool :=
  match resourceValue s with
  | .error message => .error message
  | .ok (some response) => .ok response.hasMore
  | .ok none => .ok true

/-- `loadNextPage()` with the throwing `hasMore()` read made explicit.  JS
`&&` short-circuits, so a loading store returns without reading `hasMore()`;
otherwise a thrown `hasMore()` error propagates out of the call before the
cursor is touched, and no fetch is issued. -/
def loadNextPageChecked (s : StoreState) : Except String (StoreState × Option Nat) :=
  if loading s then .ok (s, none)
  else
    match hasMoreChecked s with
    | .error message => .error message
    | .ok true =>
      .ok
        ({ s with
            currentPage := s.currentPage + 1
            resLoading := true
            resError := none
            resValue := none },
          some (s.currentPage + 1))
    | .ok false => .ok (s, none)

/-- `addUserVote`: `[...votes, \x7b offerId, voteType \x7d]`. -/
def addUserVote (s : StoreState) (offerId : String) (voteType : VoteType) : StoreState :=
  { s with userVotes := s.userVotes ++ [{ offerId := offerId, voteType := voteType }] }

/-- `updateUserVote`: flip the matching entry's `voteType` in place. -/
def updateUserVote (s : StoreState) (offerId : String) (voteType : VoteType) : StoreState :=
  { s with
    userVotes :=
      s.userVotes.map (fun v => if v.offerId == offerId then { v with voteType := voteType } else v) }

/-- `removeVote`: drop every entry for the offer. -/
def removeVote (s : StoreState) (offerId : String) : StoreState :=
  { s with userVotes := s.userVotes.filter (fun v => v.offerId != offerId) }

/-- The optimistic map of `updateOfferVotes`: add `change` to the `votes` of
every offer whose id matches, leave every other offer untouched. -/
def applyVoteDelta (offers : List Offer) (offerId : String) (change : Int) : List Offer :=
  offers.map (fun offer =>
    if offer.id == offerId then { offer with votes := offer.votes + change } else offer)

/-- The synchronous part of `updateOfferVotes(offerId, change)`: the
optimistic local update.  The dispatched `apiService.updateVote` call is
modelled by the change value the callers return. -/
def updateOfferVotes (s : StoreState) (offerId : String) (change : Int) : StoreState :=
  { s with accumulatedOffers := applyVoteDelta s.accumulatedOffers offerId change }

/-- The error callback of `updateOfferVotes`'s subscription: subtract the
previously applied `change` from the matching offer's `votes`. -/
def voteRollback (s : StoreState) (offerId : String) (change : Int) : StoreState :=
  { s with
    accumulatedOffers :=
      s.accumulatedOffers.map (fun offer =>
        if offer.id == offerId then { offer with votes := offer.votes - change } else offer) }

/-- `saveUserVotes()`: write the serialized vote set to the
`rebuy_user_votes` slot. -/
def saveUserVotes (s : StoreState) : StoreState :=
  { s with storage := some (serializeUserVotes s.userVotes) }

/-- `upvote(offerId)`: branch on the current vote exactly as the source does,
apply the user-vote mutation and the optimistic offer update, persist, and
return the delta handed to `apiService.updateVote`. -/
def upvote (s : StoreState) (offerId : String) : StoreState × Int :=
  let currentVote := s.userVotes.find? (fun v => v.offerId == offerId)
  let step :=
    match currentVote with
    | some v =>
      match v.voteType with
      | .up => (updateOfferVotes (removeVote s offerId) offerId (-1), (-1 : Int))
      | .down => (updateOfferVotes (updateUserVote s offerId .up) offerId 2, (2 : Int))
    | none => (updateOfferVotes (addUserVote s offerId .up) offerId 1, (1 : Int))
  (saveUserVotes step.1, step.2)

/-- `downvote(offerId)`: the symmetric toggle. -/
def downvote (s : StoreState) (offerId : String) : StoreState × Int :=
  let currentVote := s.userVotes.find? (fun v => v.offerId == offerId)
  let step :=
    match currentVote with
    | some v =>
      match v.voteType with
      | .down => (updateOfferVotes (removeVote s offerId) offerId 1, (1 : Int))
      | .up => (updateOfferVotes (updateUserVote s offerId .down) offerId (-2), (-2 : Int))
    | none => (updateOfferVotes (addUserVote s offerId .down) offerId (-1), (-1 : Int))
  (saveUserVotes step.1, step.2)

end OffersStore

/-! ## The specification's toggle table -/

/-- The spec's toggle table, upvote rows: from the current recorded vote,
the new recorded vote and the delta applied to the offer's tally. -/
def specUpvoteRow (cur : Int) : Int × Int :=
  if cur = 1 then (0, -1) else if cur = -1 then (1, 2) else (1, 1)

/-- The spec's toggle table, downvote rows. -/
def specDownvoteRow (cur : Int) : Int × Int :=
  if cur = -1 then (0, 1) else if cur = 1 then (-1, -2) else (-1, -1)

/-- Pointwise frame relation for a vote call on `offerId`: the post-call offer
record agrees with the pre-call record on every field except possibly
`votes`, and is entirely unchanged when its id differs from `offerId`. -/
def offerFrame (offerId : String) (o o' : Offer) : Prop :=
  o'.id = o.id ∧ o'.title = o.title ∧ o'.description = o.description
  ∧ o'.price = o.price ∧ o'.currency = o.currency ∧ o'.imageUrl = o.imageUrl
  ∧ o'.category = o.category ∧ o'.seller = o.seller ∧ o'.condition = o.condition
  ∧ o'.createdAt = o.createdAt ∧ (o.id ≠ offerId → o' = o)

/-! ## Concrete sample data -/

/-- A concrete offer (mirroring the mock offer of the store's test suite). -/
def sampleOffer : Offer :=
  { id := "offer-1", title := "Test Offer", description := "Test description",
    price := 100, currency := "USD", imageUrl := "test.jpg", votes := 10,
    category := "Electronics", seller := "Test Seller", condition := .new,
    createdAt := 0 }

/-- A second concrete offer with fewer votes. -/
def sampleOffer2 : Offer :=
  { sampleOffer with id := "offer-2", votes := 5 }

/-- The page response that delivered the sample offers (last page). -/
def sampleResponse : OffersPageResponse :=
  { offers := [sampleOffer, sampleOffer2], total := 2, page := 0, pageSize := 10,
    hasMore := false }

/-- A settled store state: both sample offers accumulated, no votes yet,
no fetch in flight, last response reported `hasMore = false`. -/
def sampleState : StoreState :=
  { currentPage := 0
    accumulatedOffers := [sampleOffer, sampleOffer2]
    userVotes := []
    storage := none
    resLoading := false
    resError := none
    resValue := some sampleResponse }

/-- The sample state with a page fetch in flight. -/
def sampleLoadingState : StoreState :=
  { sampleState with resLoading := true }

/-- A fresh API service: nothing fetched, empty vote cache. -/
def sampleApi : OffersApiService :=
  { allOffers := none, votesCache := [] }

/-- A first-page response with more pages available and no offers of note. -/
def cexFirstPage : OffersPageResponse :=
  { offers := [], total := 20, page := 0, pageSize := 10, hasMore := true }

/-- Store state after the initial page-0 fetch succeeded with `hasMore = true`. -/
def cexAfterFirstPage : StoreState :=
  OffersStore.fetchSuccess (OffersStore.initStoreState [] none) cexFirstPage

/-- The next `loadNextPage` call: advances the cursor to 1 and issues the
fetch of page 1. -/
def cexSecondLoad : StoreState × Option Nat :=
  OffersStore.loadNextPage cexAfterFirstPage

/-- Store state after the page-1 fetch failed. -/
def cexAfterFailure : StoreState :=
  OffersStore.fetchFailure cexSecondLoad.1 "Network error"

/-! ## Round-trip of the persisted vote array -/

theorem parseExact_self : ∀ (ls cs : List Char), parseExact ls (ls ++ cs) = some cs := by
  intro ls
  induction ls with
  | nil => intro cs; rfl
  | cons l ls ih => intro cs; simp [parseExact, ih]

theorem parseStringBody_jsonEscape :
    ∀ (s rest : List Char), parseStringBody (jsonEscape s ++ '"' :: rest) = some (s, rest) := by
  intro s
  induction s with
  | nil =>
    intro rest
    rw [jsonEscape, List.nil_append, parseStringBody.eq_def]
    simp
  | cons c cs ih =>
    intro rest
    by_cases h : c = '\\' ∨ c = '"'
    · rw [jsonEscape, if_pos h, List.cons_append, List.cons_append, parseStringBody.eq_def]
      have h1 : ¬ ('\\' : Char) = '"' := by decide
      simp [h1, ih]
    · rw [jsonEscape, if_neg h, List.cons_append, parseStringBody.eq_def]
      push_neg at h
      simp [h.1, h.2, ih]

theorem parseVoteTypeToken_json :
    ∀ (vt : VoteType) (rest : List Char),
      parseVoteTypeToken (voteTypeJson vt ++ rest) = some (vt, rest) := by
  intro vt rest
  cases vt <;> simp [voteTypeJson, parseVoteTypeToken]

theorem stringMk_data (s : String) : String.mk s.data = s := by
  cases s
  rfl

theorem parseItem_serialize (v : UserVote) (rest : List Char) :
    parseItem (serializeUserVote v ++ rest) = some (v, rest) := by
  have hsplit : serializeUserVote v ++ rest =
      "\x7b\"offerId\":\"".data ++ (jsonEscape v.offerId.data ++ '"' ::
        (",\"voteType\":".data ++ (voteTypeJson v.voteType ++ '\x7d' :: rest))) := by
    simp [serializeUserVote, List.append_assoc]
  rw [parseItem, hsplit]
  simp only [parseExact_self, parseStringBody_jsonEscape, parseVoteTypeToken_json,
    stringMk_data]
  simp

theorem serializeUserVote_length_pos (v : UserVote) : 0 < (serializeUserVote v).length := by
  simp [serializeUserVote]

theorem serializeItems_length :
    ∀ vs : List UserVote, vs ≠ [] → vs.length ≤ (serializeItems vs).length := by
  intro vs
  induction vs with
  | nil => intro h; exact absurd rfl h
  | cons v vs ih =>
    intro _
    cases vs with
    | nil =>
      have := serializeUserVote_length_pos v
      simp only [serializeItems, List.length_cons, List.length_nil]
      omega
    | cons w ws =>
      have h1 := serializeUserVote_length_pos v
      have h2 := ih (by simp)
      simp only [List.length_cons] at h2
      simp only [serializeItems, List.length_append, List.length_cons]
      omega

theorem parseItems_serialize :
    ∀ (vs : List UserVote) (v : UserVote) (rest : List Char) (fuel : Nat),
      (v :: vs).length ≤ fuel →
      parseItems fuel (serializeItems (v :: vs) ++ ']' :: rest) = some (v :: vs, rest) := by
  intro vs
  induction vs with
  | nil =>
    intro v rest fuel hfuel
    match fuel, hfuel with
    | fuel + 1, _ =>
      simp only [serializeItems, parseItems, parseItem_serialize]
  | cons w ws ih =>
    intro v rest fuel hfuel
    match fuel, hfuel with
    | fuel + 1, hfuel =>
      have hf : (w :: ws).length ≤ fuel := by
        simp only [List.length_cons] at hfuel ⊢
        omega
      have hsplit : serializeItems (v :: w :: ws) ++ ']' :: rest =
          serializeUserVote v ++ ',' :: (serializeItems (w :: ws) ++ ']' :: rest) := by
        simp [serializeItems, List.append_assoc]
      rw [hsplit, parseItems, parseItem_serialize]
      simp only [ih w rest fuel hf]

theorem serializeUserVote_head (v : UserVote) :
    ∃ t : List Char, serializeUserVote v = '\x7b' :: t := by
  refine ⟨"\"offerId\":\"".data ++ jsonEscape v.offerId.data
    ++ "\",\"voteType\":".data ++ voteTypeJson v.voteType ++ ['\x7d'], ?_⟩
  simp [serializeUserVote]

theorem parseUserVotes_serialize (vs : List UserVote) :
    parseUserVotes (serializeUserVotes vs) = some vs := by
  cases vs with
  | nil => rfl
  | cons v ws =>
    obtain ⟨t, ht⟩ := serializeUserVote_head v
    have hhead : ∃ u : List Char, serializeItems (v :: ws) = '\x7b' :: u := by
      cases ws with
      | nil => exact ⟨t, by simpa [serializeItems] using ht⟩
      | cons w ws' =>
        refine ⟨t ++ ',' :: serializeItems (w :: ws'), ?_⟩
        simp [serializeItems, ht]
    obtain ⟨u, hu⟩ := hhead
    have hlen : (v :: ws).length ≤ ('\x7b' :: (u ++ [']'])).length := by
      have h0 := serializeItems_length (v :: ws) (by simp)
      rw [hu] at h0
      simp only [List.length_cons, List.length_append] at h0 ⊢
      omega
    have hparse := parseItems_serialize ws v [] ('\x7b' :: (u ++ [']'])).length hlen
    rw [hu, List.cons_append] at hparse
    have hdata : (serializeUserVotes (v :: ws)).data =
        '[' :: ('\x7b' :: (u ++ [']'])) := by
      show '[' :: (serializeItems (v :: ws) ++ [']']) = '[' :: ('\x7b' :: (u ++ [']']))
      rw [hu, List.cons_append]
    rw [parseUserVotes, hdata]
    have hbrace : ¬ ('\x7b' : Char) = ']' := by decide
    simp only [if_pos rfl, if_neg hbrace, hparse]
    rfl

theorem serializeUserVotes_ne_empty (vs : List UserVote) : serializeUserVotes vs ≠ "" := by
  intro h
  have h2 : '[' :: serializeItems vs ++ [']'] = ([] : List Char) := congrArg String.data h
  exact List.noConfusion h2

theorem loadUserVotes_serialize (vs : List UserVote) :
    OffersStore.loadUserVotes (some (serializeUserVotes vs)) = Except.ok vs := by
  simp [OffersStore.loadUserVotes, serializeUserVotes_ne_empty vs, parseUserVotes_serialize]

/-! ## Vote-set bookkeeping lemmas -/

namespace OffersStore

theorem loadNextPageChecked_of_no_error (s : StoreState) (h : s.resError = none) :
    loadNextPageChecked s = Except.ok (loadNextPage s) := by
  rw [loadNextPageChecked, loadNextPage]
  by_cases hl : loading s
  · simp [hl]
  · rw [hasMoreChecked, resourceValue, h]
    cases hv : s.resValue with
    | none => simp [hl, hasMore, hv]
    | some r =>
      cases hr : r.hasMore with
      | true => simp [hl, hasMore, hv, hr]
      | false => simp [hl, hasMore, hv, hr]

theorem find?_filter_userVote (l : List UserVote) (id : String) :
    (l.filter (fun v => v.offerId != id)).find? (fun v => v.offerId == id) = none := by
  induction l with
  | nil => rfl
  | cons v l ih =>
    by_cases h : v.offerId = id
    · simp [List.filter_cons, h, ih]
    · simp [List.filter_cons, h, ih]

theorem find?_map_setVote (l : List UserVote) (id : String) (vt : VoteType) :
    ((l.map (fun v => if v.offerId == id then { v with voteType := vt } else v)).find?
        (fun v => v.offerId == id))
      = (l.find? (fun v => v.offerId == id)).map (fun v => { v with voteType := vt }) := by
  induction l with
  | nil => rfl
  | cons v l ih =>
    by_cases h : v.offerId = id
    · rw [List.map_cons, if_pos (by simp [h]),
        List.find?_cons_of_pos _ (by simp [h]), List.find?_cons_of_pos _ (by simp [h])]
      rfl
    · rw [List.map_cons, if_neg (by simp [h]),
        List.find?_cons_of_neg _ (by simp [h]), List.find?_cons_of_neg _ (by simp [h])]
      exact ih

theorem applyVoteDelta_of_absent (offers : List Offer) (id : String) (d : Int)
    (h : ∀ o ∈ offers, o.id ≠ id) : applyVoteDelta offers id d = offers := by
  induction offers with
  | nil => rfl
  | cons o l ih =>
    have ho : o.id ≠ id := h o (by simp)
    have hl : ∀ x ∈ l, x.id ≠ id := fun x hx => h x (by simp [hx])
    simp only [applyVoteDelta, List.map_cons] at ih ⊢
    rw [if_neg (by simp [ho]), ih hl]

theorem rollback_cancels (offers : List Offer) (id : String) (d : Int) :
    (applyVoteDelta offers id d).map
        (fun o => if o.id == id then { o with votes := o.votes - d } else o)
      = offers := by
  induction offers with
  | nil => rfl
  | cons o l ih =>
    obtain ⟨oid', otitle, odesc, opr, ocur, oimg, ovotes, ocat, osel, ocond, ocr⟩ := o
    by_cases h : oid' = id
    · simp only [applyVoteDelta, List.map_cons] at ih ⊢
      simp [h, Int.add_sub_cancel]
      simpa using ih
    · simp only [applyVoteDelta, List.map_cons] at ih ⊢
      simp [h]
      simpa using ih

/-! ## Characterisation of `upvote` / `downvote` -/

theorem upvote_delta (s : StoreState) (id : String) :
    (upvote s id).2 = (specUpvoteRow (getUserVote s id)).2 := by
  simp only [upvote, getUserVote]
  cases hfind : s.userVotes.find? (fun v => v.offerId == id) with
  | none => simp [specUpvoteRow]
  | some v =>
    cases hvt : v.voteType with
    | up => simp [hvt, VoteType.toInt, specUpvoteRow]
    | down => simp [hvt, VoteType.toInt, specUpvoteRow]

theorem downvote_delta (s : StoreState) (id : String) :
    (downvote s id).2 = (specDownvoteRow (getUserVote s id)).2 := by
  simp only [downvote, getUserVote]
  cases hfind : s.userVotes.find? (fun v => v.offerId == id) with
  | none => simp [specDownvoteRow]
  | some v =>
    cases hvt : v.voteType with
    | up => simp [hvt, VoteType.toInt, specDownvoteRow]
    | down => simp [hvt, VoteType.toInt, specDownvoteRow]

theorem getUserVote_upvote (s : StoreState) (id : String) :
    getUserVote (upvote s id).1 id = (specUpvoteRow (getUserVote s id)).1 := by
  cases hfind : s.userVotes.find? (fun v => v.offerId == id) with
  | none =>
    have hup1 : (upvote s id).1
        = saveUserVotes (updateOfferVotes (addUserVote s id VoteType.up) id 1) := by
      simp only [upvote, hfind]
    have hcur : getUserVote s id = 0 := by
      simp only [getUserVote, hfind]
    have hres : (saveUserVotes (updateOfferVotes (addUserVote s id VoteType.up) id 1)).userVotes
        = s.userVotes ++ [{ offerId := id, voteType := VoteType.up }] := rfl
    have happ : List.find? (fun v => v.offerId == id)
        (s.userVotes ++ [{ offerId := id, voteType := VoteType.up }])
        = some { offerId := id, voteType := VoteType.up } := by
      rw [List.find?_append, hfind]
      simp
    rw [hup1, hcur, getUserVote, hres, happ]
    simp [VoteType.toInt, specUpvoteRow]
  | some v =>
    cases hvt : v.voteType with
    | up =>
      have hup1 : (upvote s id).1
          = saveUserVotes (updateOfferVotes (removeVote s id) id (-1)) := by
        simp only [upvote, hfind, hvt]
      have hcur : getUserVote s id = 1 := by
        simp only [getUserVote, hfind, hvt, VoteType.toInt]
      have hres : (saveUserVotes (updateOfferVotes (removeVote s id) id (-1))).userVotes
          = s.userVotes.filter (fun v => v.offerId != id) := rfl
      rw [hup1, hcur, getUserVote, hres, find?_filter_userVote]
      simp [specUpvoteRow]
    | down =>
      have hup1 : (upvote s id).1
          = saveUserVotes (updateOfferVotes (updateUserVote s id VoteType.up) id 2) := by
        simp only [upvote, hfind, hvt]
      have hcur : getUserVote s id = -1 := by
        simp only [getUserVote, hfind, hvt, VoteType.toInt]
      have hres : (saveUserVotes (updateOfferVotes (updateUserVote s id VoteType.up) id 2)).userVotes
          = s.userVotes.map
              (fun v => if v.offerId == id then { v with voteType := VoteType.up } else v) := rfl
      have hmap := find?_map_setVote s.userVotes id VoteType.up
      rw [hfind] at hmap
      rw [hup1, hcur, getUserVote, hres, hmap]
      simp [VoteType.toInt, specUpvoteRow]

theorem getUserVote_downvote (s : StoreState) (id : String) :
    getUserVote (downvote s id).1 id = (specDownvoteRow (getUserVote s id)).1 := by
  cases hfind : s.userVotes.find? (fun v => v.offerId == id) with
  | none =>
    have hdn1 : (downvote s id).1
        = saveUserVotes (updateOfferVotes (addUserVote s id VoteType.down) id (-1)) := by
      simp only [downvote, hfind]
    have hcur : getUserVote s id = 0 := by
      simp only [getUserVote, hfind]
    have hres : (saveUserVotes (updateOfferVotes (addUserVote s id VoteType.down) id (-1))).userVotes
        = s.userVotes ++ [{ offerId := id, voteType := VoteType.down }] := rfl
    have happ : List.find? (fun v => v.offerId == id)
        (s.userVotes ++ [{ offerId := id, voteType := VoteType.down }])
        = some { offerId := id, voteType := VoteType.down } := by
      rw [List.find?_append, hfind]
      simp
    rw [hdn1, hcur, getUserVote, hres, happ]
    simp [VoteType.toInt, specDownvoteRow]
  | some v =>
    cases hvt : v.voteType with
    | down =>
      have hdn1 : (downvote s id).1
          = saveUserVotes (updateOfferVotes (removeVote s id) id 1) := by
        simp only [downvote, hfind, hvt]
      have hcur : getUserVote s id = -1 := by
        simp only [getUserVote, hfind, hvt, VoteType.toInt]
      have hres : (saveUserVotes (updateOfferVotes (removeVote s id) id 1)).userVotes
          = s.userVotes.filter (fun v => v.offerId != id) := rfl
      rw [hdn1, hcur, getUserVote, hres, find?_filter_userVote]
      simp [specDownvoteRow]
    | up =>
      have hdn1 : (downvote s id).1
          = saveUserVotes (updateOfferVotes (updateUserVote s id VoteType.down) id (-2)) := by
        simp only [downvote, hfind, hvt]
      have hcur : getUserVote s id = 1 := by
        simp only [getUserVote, hfind, hvt, VoteType.toInt]
      have hres :
          (saveUserVotes (updateOfferVotes (updateUserVote s id VoteType.down) id (-2))).userVotes
          = s.userVotes.map
              (fun v => if v.offerId == id then { v with voteType := VoteType.down } else v) := rfl
      have hmap := find?_map_setVote s.userVotes id VoteType.down
      rw [hfind] at hmap
      rw [hdn1, hcur, getUserVote, hres, hmap]
      simp [VoteType.toInt, specDownvoteRow]

theorem upvote_accumulated (s : StoreState) (id : String) :
    (upvote s id).1.accumulatedOffers
      = applyVoteDelta s.accumulatedOffers id ((upvote s id).2) := by
  simp only [upvote]
  cases hfind : s.userVotes.find? (fun v => v.offerId == id) with
  | none => simp [saveUserVotes, updateOfferVotes, addUserVote]
  | some v =>
    cases hvt : v.voteType with
    | up => simp [hvt, saveUserVotes, updateOfferVotes, removeVote]
    | down => simp [hvt, saveUserVotes, updateOfferVotes, updateUserVote]

theorem downvote_accumulated (s : StoreState) (id : String) :
    (downvote s id).1.accumulatedOffers
      = applyVoteDelta s.accumulatedOffers id ((downvote s id).2) := by
  simp only [downvote]
  cases hfind : s.userVotes.find? (fun v => v.offerId == id) with
  | none => simp [saveUserVotes, updateOfferVotes, addUserVote]
  | some v =>
    cases hvt : v.voteType with
    | up => simp [hvt, saveUserVotes, updateOfferVotes, updateUserVote]
    | down => simp [hvt, saveUserVotes, updateOfferVotes, removeVote]

theorem upvote_frame (s : StoreState) (id : String) :
    (upvote s id).1.currentPage = s.currentPage
    ∧ (upvote s id).1.resLoading = s.resLoading
    ∧ (upvote s id).1.resError = s.resError
    ∧ (upvote s id).1.resValue = s.resValue := by
  simp only [upvote]
  cases hfind : s.userVotes.find? (fun v => v.offerId == id) with
  | none => simp [saveUserVotes, updateOfferVotes, addUserVote]
  | some v =>
    cases hvt : v.voteType with
    | up => simp [hvt, saveUserVotes, updateOfferVotes, removeVote]
    | down => simp [hvt, saveUserVotes, updateOfferVotes, updateUserVote]

theorem downvote_frame (s : StoreState) (id : String) :
    (downvote s id).1.currentPage = s.currentPage
    ∧ (downvote s id).1.resLoading = s.resLoading
    ∧ (downvote s id).1.resError = s.resError
    ∧ (downvote s id).1.resValue = s.resValue := by
  simp only [downvote]
  cases hfind : s.userVotes.find? (fun v => v.offerId == id) with
  | none => simp [saveUserVotes, updateOfferVotes, addUserVote]
  | some v =>
    cases hvt : v.voteType with
    | up => simp [hvt, saveUserVotes, updateOfferVotes, updateUserVote]
    | down => simp [hvt, saveUserVotes, updateOfferVotes, removeVote]

theorem upvote_storage (s : StoreState) (id : String) :
    (upvote s id).1.storage = some (serializeUserVotes (upvote s id).1.userVotes) := by
  simp only [upvote]
  simp [saveUserVotes]

theorem downvote_storage (s : StoreState) (id : String) :
    (downvote s id).1.storage = some (serializeUserVotes (downvote s id).1.userVotes) := by
  simp only [downvote]
  simp [saveUserVotes]

theorem find?_eq_none_of_getUserVote_zero (s : StoreState) (id : String)
    (h : getUserVote s id = 0) :
    s.userVotes.find? (fun v => v.offerId == id) = none := by
  cases hfind : s.userVotes.find? (fun v => v.offerId == id) with
  | none => rfl
  | some v =>
    cases hvt : v.voteType with
    | up => simp [getUserVote, hfind, hvt, VoteType.toInt] at h
    | down => simp [getUserVote, hfind, hvt, VoteType.toInt] at h

theorem upvote_userVotes_of_novote (s : StoreState) (id : String)
    (h : s.userVotes.find? (fun v => v.offerId == id) = none) :
    (upvote s id).1.userVotes = s.userVotes ++ [{ offerId := id, voteType := .up }] := by
  simp only [upvote, h]
  simp [saveUserVotes, updateOfferVotes, addUserVote]

/-! ## Sorting: order and stability -/

theorem filter_orderedInsert (x : Offer) (v : Int) :
    ∀ l : List Offer,
      (List.orderedInsert voteOrder x l).filter (fun o => o.votes == v)
        = if x.votes == v then x :: l.filter (fun o => o.votes == v)
          else l.filter (fun o => o.votes == v) := by
  intro l
  induction l with
  | nil => simp [List.orderedInsert, List.filter_cons]
  | cons b l ih =>
    by_cases hr : voteOrder x b
    · simp [List.orderedInsert, hr, List.filter_cons]
    · have hlt : x.votes < b.votes := by
        simpa [voteOrder, not_le] using hr
      by_cases hx : x.votes = v
      · have hb : ¬ b.votes = v := by
          intro hb
          rw [hx] at hlt
          rw [hb] at hlt
          exact lt_irrefl v hlt
        simp [List.orderedInsert, hr, List.filter_cons, hx, hb, ih]
      · simp [List.orderedInsert, hr, List.filter_cons, hx, ih]

theorem filter_insertionSort (v : Int) :
    ∀ l : List Offer,
      (List.insertionSort voteOrder l).filter (fun o => o.votes == v)
        = l.filter (fun o => o.votes == v) := by
  intro l
  induction l with
  | nil => rfl
  | cons x l ih =>
    rw [List.insertionSort, filter_orderedInsert, ih, List.filter_cons]

end OffersStore

/-! ## The API service's vote accounting -/

namespace OffersApiService

theorem updateVote_lastKnown (st : OffersApiService) (id : String) (d : Int) :
    (updateVote st id d).2 = lastKnownVotes st id + d := by
  simp only [updateVote, lastKnownVotes]
  cases hc : cacheGet st.votesCache id with
  | some v => simp
  | none =>
    cases ho : offerLookup st id with
    | some o => simp
    | none => simp

end OffersApiService

/-! ## Claims -/

/-- C1: for every store state, if an `upvote(offerId)` or `downvote(offerId)`
call applies its delta and the data source's vote-update call then fails, the
error callback restores the accumulated offer list — and hence every offer's
`votes` field — to exactly its pre-vote value, while the rest of the state is
exactly the post-vote state: the UserVote record and its persisted copy stay
in their post-vote state; only the numeric tally rolls back. -/
theorem claim1_rollback_restores_only_tally (s : StoreState) (offerId : String) :
    OffersStore.voteRollback (OffersStore.upvote s offerId).1 offerId
        ((OffersStore.upvote s offerId).2)
      = { (OffersStore.upvote s offerId).1 with accumulatedOffers := s.accumulatedOffers }
    ∧ OffersStore.voteRollback (OffersStore.downvote s offerId).1 offerId
        ((OffersStore.downvote s offerId).2)
      = { (OffersStore.downvote s offerId).1 with accumulatedOffers := s.accumulatedOffers } := by
  constructor
  · have h1 := OffersStore.upvote_accumulated s offerId
    rw [OffersStore.voteRollback, h1, OffersStore.rollback_cancels]
  · have h2 := OffersStore.downvote_accumulated s offerId
    rw [OffersStore.voteRollback, h2, OffersStore.rollback_cancels]

/-- C2: `upvote` and `downvote` follow the six-row toggle table: the new
recorded vote, the delta handed to the data source, and the delta applied to
the matching offer's `votes` are exactly the table rows selected by the
user's current vote. -/
theorem claim2_toggle_table (s : StoreState) (offerId : String) :
    (OffersStore.getUserVote (OffersStore.upvote s offerId).1 offerId
        = (specUpvoteRow (OffersStore.getUserVote s offerId)).1
      ∧ (OffersStore.upvote s offerId).2
          = (specUpvoteRow (OffersStore.getUserVote s offerId)).2
      ∧ (OffersStore.upvote s offerId).1.accumulatedOffers
          = OffersStore.applyVoteDelta s.accumulatedOffers offerId
              (specUpvoteRow (OffersStore.getUserVote s offerId)).2)
    ∧ (OffersStore.getUserVote (OffersStore.downvote s offerId).1 offerId
        = (specDownvoteRow (OffersStore.getUserVote s offerId)).1
      ∧ (OffersStore.downvote s offerId).2
          = (specDownvoteRow (OffersStore.getUserVote s offerId)).2
      ∧ (OffersStore.downvote s offerId).1.accumulatedOffers
          = OffersStore.applyVoteDelta s.accumulatedOffers offerId
              (specDownvoteRow (OffersStore.getUserVote s offerId)).2) := by
  refine ⟨⟨OffersStore.getUserVote_upvote s offerId, OffersStore.upvote_delta s offerId, ?_⟩,
    ⟨OffersStore.getUserVote_downvote s offerId, OffersStore.downvote_delta s offerId, ?_⟩⟩
  · rw [OffersStore.upvote_accumulated, OffersStore.upvote_delta]
  · rw [OffersStore.downvote_accumulated, OffersStore.downvote_delta]

/-- C3: for every store state, `offers()` is a permutation of the accumulated
offer list sorted by `votes` descending, and the sort is stable: for every
vote value, the offers carrying that value appear in exactly their
accumulation order. -/
theorem claim3_offers_sorted_stable (s : StoreState) :
    (OffersStore.offers s).Pairwise (fun a b => b.votes ≤ a.votes)
    ∧ (OffersStore.offers s).Perm s.accumulatedOffers
    ∧ ∀ v : Int, (OffersStore.offers s).filter (fun o => o.votes == v)
        = s.accumulatedOffers.filter (fun o => o.votes == v) :=
  ⟨List.sorted_insertionSort OffersStore.voteOrder s.accumulatedOffers,
   List.perm_insertionSort OffersStore.voteOrder s.accumulatedOffers,
   fun v => OffersStore.filter_insertionSort v s.accumulatedOffers⟩

/-- C4 (code bug): `loadUserVotes` runs `JSON.parse` with no try/catch.  A
missing stored value does yield the empty vote set, but an unparsable stored
value makes the parse error propagate out of store construction instead of
failing open to an empty vote set, contradicting the method's own doc
comment ("Returns empty array if no votes found or JSON is invalid"). -/
theorem claim4_malformed_votes_throw :
    OffersStore.loadUserVotes none = Except.ok []
    ∧ OffersStore.loadUserVotes (some "not json")
        = Except.error "SyntaxError: JSON.parse: unexpected character"
    ∧ OffersStore.initStore (some "not json")
        = Except.error "SyntaxError: JSON.parse: unexpected character" :=
  ⟨rfl, rfl, rfl⟩

/-- C5 (amended): on a page-fetch failure `loading()` becomes false,
`error()` carries the failure message, and the accumulated set and the
cursor are unchanged by the failure (no rollback); but there is no next
successful `loadNextPage()` call: while the error state persists, reading
`hasMore()` inside `loadNextPage()` throws the stored fetch error, so the
call propagates that error, the cursor is not advanced, and no fetch is
issued — the failed page is never refetched. -/
theorem claim5_fetch_failure_state (s : StoreState) (message : String) :
    OffersStore.loading (OffersStore.fetchFailure s message) = false
    ∧ OffersStore.error (OffersStore.fetchFailure s message) = some message
    ∧ (OffersStore.fetchFailure s message).accumulatedOffers = s.accumulatedOffers
    ∧ (OffersStore.fetchFailure s message).currentPage = s.currentPage
    ∧ OffersStore.loadNextPageChecked (OffersStore.fetchFailure s message)
        = Except.error message :=
  ⟨rfl, rfl, rfl, rfl, rfl⟩

/-- C5 counterexample: after page 0 loads with more pages available,
`loadNextPage` issues the fetch of page 1; that fetch fails; afterwards a
`loadNextPage()` call throws the stored fetch error — there is no
successful call and no fetch is issued, so in particular no next successful
call fetches failed page 1, making the claim "the next successful
loadNextPage() call fetches the same page that failed" false on this
trace. -/
theorem claim5_counterexample :
    cexSecondLoad.2 = some 1
    ∧ OffersStore.error cexAfterFailure = some "Network error"
    ∧ OffersStore.loadNextPageChecked cexAfterFailure = Except.error "Network error"
    ∧ ¬ ∃ r : StoreState × Option Nat,
        OffersStore.loadNextPageChecked cexAfterFailure = Except.ok r := by
  refine ⟨rfl, rfl, rfl, ?_⟩
  rintro ⟨r, hr⟩
  rw [show OffersStore.loadNextPageChecked cexAfterFailure
      = Except.error "Network error" from rfl] at hr
  exact Except.noConfusion hr

/-- C6: in every state where a fetch is in flight (`loading()` true) or where
`hasMore()` is false, `loadNextPage()` is a silent no-op: the state (and in
particular the cursor) does not change and no fetch is issued. -/
theorem claim6_loadNextPage_guard (s : StoreState) :
    (OffersStore.loading s = true → OffersStore.loadNextPage s = (s, none))
    ∧ (OffersStore.hasMore s = false → OffersStore.loadNextPage s = (s, none)) := by
  constructor
  · intro h
    simp [OffersStore.loadNextPage, h]
  · intro h
    simp [OffersStore.loadNextPage, h]

/-- Witness for C6: a concrete in-flight state and a concrete exhausted
state on which `loadNextPage` is a no-op. -/
theorem claim6_witness :
    OffersStore.loading sampleLoadingState = true
    ∧ OffersStore.loadNextPage sampleLoadingState = (sampleLoadingState, none)
    ∧ OffersStore.hasMore sampleState = false
    ∧ OffersStore.loadNextPage sampleState = (sampleState, none) :=
  ⟨rfl, (claim6_loadNextPage_guard sampleLoadingState).1 rfl, rfl,
   (claim6_loadNextPage_guard sampleState).2 rfl⟩

/-- C7: for an offer with no prior user vote, `upvote` persists a
serialization of the post-vote vote set to the durable slot, constructing a
fresh store from that slot succeeds and loads exactly that set, and the
fresh store reports `getUserVote = 1`. -/
theorem claim7_persistence_roundtrip (s : StoreState) (offerId : String)
    (h : OffersStore.getUserVote s offerId = 0) :
    (OffersStore.upvote s offerId).1.storage
        = some (serializeUserVotes (OffersStore.upvote s offerId).1.userVotes)
    ∧ OffersStore.initStore (OffersStore.upvote s offerId).1.storage
        = Except.ok (OffersStore.initStoreState (OffersStore.upvote s offerId).1.userVotes
            ((OffersStore.upvote s offerId).1.storage))
    ∧ OffersStore.getUserVote
        (OffersStore.initStoreState (OffersStore.upvote s offerId).1.userVotes
          ((OffersStore.upvote s offerId).1.storage)) offerId = 1 := by
  have hfind := OffersStore.find?_eq_none_of_getUserVote_zero s offerId h
  have huv := OffersStore.upvote_userVotes_of_novote s offerId hfind
  have hst := OffersStore.upvote_storage s offerId
  refine ⟨hst, ?_, ?_⟩
  · rw [hst, OffersStore.initStore, loadUserVotes_serialize]
    rfl
  · have hini : (OffersStore.initStoreState (OffersStore.upvote s offerId).1.userVotes
        ((OffersStore.upvote s offerId).1.storage)).userVotes
        = (OffersStore.upvote s offerId).1.userVotes := rfl
    rw [OffersStore.getUserVote, hini, huv, List.find?_append, hfind]
    simp [VoteType.toInt]

/-- Witness for C7: upvoting `offer-1` in the sample state (no prior vote)
and reloading the persisted slot yields `getUserVote = 1`. -/
theorem claim7_witness :
    OffersStore.getUserVote
        (OffersStore.initStoreState (OffersStore.upvote sampleState "offer-1").1.userVotes
          ((OffersStore.upvote sampleState "offer-1").1.storage)) "offer-1" = 1 :=
  (claim7_persistence_roundtrip sampleState "offer-1" (by decide)).2.2

/-- C8: voting on an `offerId` absent from the accumulated set leaves the
accumulated offers unchanged, but the UserVote bookkeeping still follows the
toggle table and the updated vote set is still persisted. -/
theorem claim8_vote_on_absent_offer (s : StoreState) (offerId : String)
    (h : ∀ o ∈ s.accumulatedOffers, o.id ≠ offerId) :
    (OffersStore.upvote s offerId).1.accumulatedOffers = s.accumulatedOffers
    ∧ (OffersStore.downvote s offerId).1.accumulatedOffers = s.accumulatedOffers
    ∧ OffersStore.getUserVote (OffersStore.upvote s offerId).1 offerId
        = (specUpvoteRow (OffersStore.getUserVote s offerId)).1
    ∧ OffersStore.getUserVote (OffersStore.downvote s offerId).1 offerId
        = (specDownvoteRow (OffersStore.getUserVote s offerId)).1
    ∧ (OffersStore.upvote s offerId).1.storage
        = some (serializeUserVotes (OffersStore.upvote s offerId).1.userVotes)
    ∧ (OffersStore.downvote s offerId).1.storage
        = some (serializeUserVotes (OffersStore.downvote s offerId).1.userVotes) := by
  refine ⟨?_, ?_, OffersStore.getUserVote_upvote s offerId,
    OffersStore.getUserVote_downvote s offerId, OffersStore.upvote_storage s offerId,
    OffersStore.downvote_storage s offerId⟩
  · rw [OffersStore.upvote_accumulated, OffersStore.applyVoteDelta_of_absent _ _ _ h]
  · rw [OffersStore.downvote_accumulated, OffersStore.applyVoteDelta_of_absent _ _ _ h]

/-- Witness for C8: upvoting an id not in the sample accumulated set leaves
the accumulated offers unchanged while the vote is still recorded. -/
theorem claim8_witness :
    (OffersStore.upvote sampleState "missing-offer").1.accumulatedOffers
        = sampleState.accumulatedOffers
    ∧ OffersStore.getUserVote (OffersStore.upvote sampleState "missing-offer").1 "missing-offer"
        = (specUpvoteRow (OffersStore.getUserVote sampleState "missing-offer")).1 :=
  ⟨(claim8_vote_on_absent_offer sampleState "missing-offer" (by decide)).1,
   (claim8_vote_on_absent_offer sampleState "missing-offer" (by decide)).2.2.1⟩

/-- C9: the data source's `updateVote` returns its own last-known total for
the id plus the delta; for an id unknown to the data source (neither cached
nor among the fetched offers, so the last-known total defaults to 0), the
call returns exactly the delta instead of failing. -/
theorem claim9_updateVote_cumulative (st : OffersApiService) (offerId : String) (delta : Int) :
    (OffersApiService.updateVote st offerId delta).2
        = OffersApiService.lastKnownVotes st offerId + delta
    ∧ (OffersApiService.cacheGet st.votesCache offerId = none →
        OffersApiService.offerLookup st offerId = none →
        (OffersApiService.updateVote st offerId delta).2 = delta) := by
  refine ⟨OffersApiService.updateVote_lastKnown st offerId delta, ?_⟩
  intro h1 h2
  rw [OffersApiService.updateVote_lastKnown, OffersApiService.lastKnownVotes, h1, h2]
  simp

/-- Witness for C9: on a fresh data source, a vote-update call for a
never-fetched id returns exactly the delta. -/
theorem claim9_witness :
    (OffersApiService.updateVote sampleApi "never-fetched" 5).2 = 5 :=
  (claim9_updateVote_cumulative sampleApi "never-fetched" 5).2 rfl rfl

/-- C10: the synchronous effect of `upvote`/`downvote` on the store is
framed: the cursor, `loading()`, `error()` and the resource value are
unchanged, and the accumulated offers are pointwise unchanged in every field
except possibly the `votes` of offers whose id matches. -/
theorem claim10_vote_frame (s : StoreState) (offerId : String) :
    ((OffersStore.upvote s offerId).1.currentPage = s.currentPage
      ∧ OffersStore.loading (OffersStore.upvote s offerId).1 = OffersStore.loading s
      ∧ OffersStore.error (OffersStore.upvote s offerId).1 = OffersStore.error s
      ∧ (OffersStore.upvote s offerId).1.resValue = s.resValue
      ∧ List.Forall₂ (offerFrame offerId) s.accumulatedOffers
          (OffersStore.upvote s offerId).1.accumulatedOffers)
    ∧ ((OffersStore.downvote s offerId).1.currentPage = s.currentPage
      ∧ OffersStore.loading (OffersStore.downvote s offerId).1 = OffersStore.loading s
      ∧ OffersStore.error (OffersStore.downvote s offerId).1 = OffersStore.error s
      ∧ (OffersStore.downvote s offerId).1.resValue = s.resValue
      ∧ List.Forall₂ (offerFrame offerId) s.accumulatedOffers
          (OffersStore.downvote s offerId).1.accumulatedOffers) := by
  obtain ⟨hu1, hu2, hu3, hu4⟩ := OffersStore.upvote_frame s offerId
  obtain ⟨hd1, hd2, hd3, hd4⟩ := OffersStore.downvote_frame s offerId
  refine ⟨⟨hu1, hu2, hu3, hu4, ?_⟩, ⟨hd1, hd2, hd3, hd4, ?_⟩⟩
  · rw [OffersStore.upvote_accumulated, OffersStore.applyVoteDelta,
      List.forall₂_map_right_iff, List.forall₂_same]
    intro o _
    by_cases h : o.id = offerId <;> simp [offerFrame, h]
  · rw [OffersStore.downvote_accumulated, OffersStore.applyVoteDelta,
      List.forall₂_map_right_iff, List.forall₂_same]
    intro o _
    by_cases h : o.id = offerId <;> simp [offerFrame, h]

/-- Witness for C10: the frame property applied to the sample state; the
cursor is untouched and the non-voted offer record is entirely unchanged. -/
theorem claim10_witness :
    (OffersStore.upvote sampleState "offer-1").1.currentPage = sampleState.currentPage
    ∧ List.Forall₂ (offerFrame "offer-1") sampleState.accumulatedOffers
        (OffersStore.upvote sampleState "offer-1").1.accumulatedOffers :=
  ⟨(claim10_vote_frame sampleState "offer-1").1.1,
   (claim10_vote_frame sampleState "offer-1").1.2.2.2.2⟩

end RebuyMarketplace
